import Mathlib

/-!
Verification of the failure-extraction and report-assembly pipeline of
`scripts/failure_explainer.py`.

The Python script walks a nested Playwright JSON result tree, extracts one
record per failed / timed-out result, classifies attachments, analyzes each
failure through an (optional) Azure OpenAI backend, and renders HTML / JSON
reports.  This file gives a shallow embedding of the relevant functions and
proves or refutes the specified properties about them.
-/

namespace FailureExplainer

/-! ## List-of-characters string helpers

Python string operations (`in`, `startswith`, `endswith`, `lower`, `strip`,
`replace`) are modelled as executable functions over `List Char`.
-/

/-- Lowercase every character, modelling Python `str.lower` on ASCII text. -/
def lowerL (s : List Char) : List Char := s.map Char.toLower

/-- Decide whether `pat` occurs at the start of `s`. -/
def startsL : List Char → List Char → Bool
  | _, [] => true
  | [], _ :: _ => false
  | c :: s, p :: pat => c == p && startsL s pat

/-- Index of the first occurrence of `pat` in `s`, if any
(models the scan performed by Python `str.find` / `in` / `re.search`). -/
def findSub : List Char → List Char → Option Nat
  | s, pat =>
    if startsL s pat then some 0
    else match s with
      | [] => none
      | _ :: rest => (findSub rest pat).map (· + 1)

/-- Decide whether `pat` occurs anywhere in `s`, modelling Python `pat in s`. -/
def containsSub (s pat : List Char) : Bool := (findSub s pat).isSome

/-- Decide whether `s` ends with `pat`, modelling Python `str.endswith`. -/
def endsL (s pat : List Char) : Bool := startsL s.reverse pat.reverse

/-- Characters treated as whitespace by Python `\s` and `str.strip`
(ASCII range). -/
def pyWs (c : Char) : Bool :=
  c = ' ' || c = '\t' || c = '\n' || c = '\r' || c = '\x0b' || c = '\x0c'

/-- Strip leading and trailing whitespace, modelling Python `str.strip()`. -/
def stripL (s : List Char) : List Char :=
  ((s.dropWhile pyWs).reverse.dropWhile pyWs).reverse

/-- Fuel-driven worker for `replaceL`: every step consumes at least one
character, so fuel equal to the length of the text never runs out. -/
def replaceGo (pat rep : List Char) : Nat → List Char → List Char
  | _, [] => []
  | 0, s => s
  | fuel + 1, c :: rest =>
    if startsL (c :: rest) pat then
      rep ++ replaceGo pat rep fuel (rest.drop (pat.length - 1))
    else c :: replaceGo pat rep fuel rest

/-- Replace every non-overlapping occurrence of `pat` (assumed nonempty) by
`rep`, scanning left to right: models Python `str.replace`. -/
def replaceL (pat rep s : List Char) : List Char := replaceGo pat rep s.length s

/-- String-level wrapper for `containsSub`. -/
def strContains (s pat : String) : Bool := containsSub s.data pat.data

/-- Case-insensitive containment, modelling `re.IGNORECASE` matching of a
literal pattern. -/
def containsCI (s pat : String) : Bool := containsSub (lowerL s.data) (lowerL pat.data)

/-! ## Data model

The JSON input shapes consumed by `PlaywrightResultsParser.get_failures` and
the dataclasses `FailureAnalysis` / `TestFailure` of the script.  Optional
JSON keys become `Option` fields; the script's `dict.get(k, default)` calls
become `Option.getD`.
-/

/-- Dataclass `FailureAnalysis`: structured analysis result from AI. -/
structure FailureAnalysis where
  root_cause : String
  explanation : String
  suggested_fix : String
deriving DecidableEq, Repr

/-- One attachment dict `{name, path, contentType}` of a result; every key may
be absent. -/
structure Attachment where
  name : Option String
  path : Option String
  contentType : Option String
deriving DecidableEq, Repr

/-- A screenshot entry as built by the classifier
(`{'name': ..., 'path': ..., 'contentType': ...}`); the entries rebuilt by
`generate_html_report` carry no `contentType` key, hence the `Option`. -/
structure ShotRef where
  name : String
  path : String
  contentType : Option String
deriving DecidableEq, Repr

/-- An error payload dict `{message, stack}`.  A value `some e` models a
non-empty (truthy) error dict; an absent or empty dict is modelled as `none`. -/
structure ErrorObj where
  message : Option String
  stack : Option String
deriving DecidableEq, Repr

/-- One execution attempt of a spec.  `errors = some []` models a present but
empty `errors` list, distinct from an absent key (`none`). -/
structure TestResult where
  status : Option String
  duration : Option Nat
  error : Option ErrorObj
  errors : Option (List ErrorObj)
  attachments : Option (List Attachment)
deriving DecidableEq, Repr

/-- One test of a spec: a list of attempt results. -/
structure TestNode where
  results : List TestResult
deriving DecidableEq, Repr

/-- One spec of a suite: a title and a list of tests. -/
structure SpecNode where
  title : Option String
  tests : List TestNode
deriving DecidableEq, Repr

/-- A suite node: optional file path, specs, and nested child suites. -/
inductive Suite where
  | mk (file : Option String) (specs : List SpecNode) (suites : List Suite)

/-- Dataclass `TestFailure`: a failed test with its context. -/
structure TestFailure where
  test_name : String
  test_file : String
  duration_ms : Nat
  error_message : String
  error_stack : String
  status : String
  attachments : List Attachment
  screenshots : List ShotRef
  trace_path : Option String
  video_path : Option String
  analysis : Option FailureAnalysis
deriving DecidableEq, Repr

/-! ## Attachment classification

The classification loop of `process_suite` (lines 271-285): one pass over the
attachment list, `if / elif / elif` on each attachment, appending to the
screenshot list and overwriting the singular trace / video slots.
-/

/-- Accumulated classification state `(screenshots, trace_path, video_path)`. -/
structure Classified where
  screenshots : List ShotRef
  trace_path : Option String
  video_path : Option String
deriving DecidableEq, Repr

/-- Screenshot condition of the loop:
`'screenshot' in att_name or content_type.startswith('image/')`
where `att_name = att.get('name', '').lower()`. -/
def scrCond (a : Attachment) : Bool :=
  containsSub (lowerL (a.name.getD "").data) "screenshot".data
    || startsL (a.contentType.getD "").data "image/".data

/-- Trace condition of the loop:
`'trace' in att_name or att_path.endswith('.zip')`. -/
def trCond (a : Attachment) : Bool :=
  containsSub (lowerL (a.name.getD "").data) "trace".data
    || endsL (a.path.getD "").data ".zip".data

/-- Video condition of the loop:
`'video' in att_name or content_type.startswith('video/')`. -/
def vidCond (a : Attachment) : Bool :=
  containsSub (lowerL (a.name.getD "").data) "video".data
    || startsL (a.contentType.getD "").data "video/".data

/-- Screenshot dict appended by the loop:
`{'name': att.get('name', 'screenshot'), 'path': att_path, 'contentType': content_type}`. -/
def mkShot (a : Attachment) : ShotRef :=
  ⟨a.name.getD "screenshot", a.path.getD "", some (a.contentType.getD "")⟩

/-- Body of the `for att in attachments` loop (lines 271-285). -/
def classifyStep (acc : Classified) (a : Attachment) : Classified :=
  if scrCond a then
    { acc with screenshots := acc.screenshots ++ [mkShot a] }
  else if trCond a then
    { acc with trace_path := some (a.path.getD "") }
  else if vidCond a then
    { acc with video_path := some (a.path.getD "") }
  else acc

/-- The classification loop as a left fold from the empty state. -/
def classifyLoop (acc : Classified) : List Attachment → Classified
  | [] => acc
  | a :: rest => classifyLoop (classifyStep acc a) rest

/-- Classification of a result's attachment list
(`screenshots = []`, `trace_path = None`, `video_path = None` initially). -/
def classify (atts : List Attachment) : Classified :=
  classifyLoop ⟨[], none, none⟩ atts

/-! ## Tree walk (`PlaywrightResultsParser.get_failures` / `process_suite`)

The recursive walk is embedded as a recursion over a forest of suites: the
Python `process_suite(suite, parent_file)` body handles one suite and loops
over its children with the resolved file path; processing a list of siblings
one after the other is fused into the same recursion.
-/

/-- Error extraction of the walk (lines 254-264): the plural `errors` list is
consulted first and used when truthy (present and non-empty); otherwise the
singular `error` object is used when truthy; otherwise both fields stay
empty.  Returns `(error_msg, error_stack)`. -/
def extractError (r : TestResult) : String × String :=
  match r.errors with
  | some (e :: _) => (e.message.getD "", e.stack.getD "")
  | _ =>
    match r.error with
    | some e => (e.message.getD "", e.stack.getD "")
    | none => ("", "")

/-- Records produced for one result (body of the innermost loop,
lines 252-299): one `TestFailure` when the status is `failed` or `timedOut`,
none otherwise. -/
def resultRecords (title : Option String) (fp : String) (r : TestResult) :
    List TestFailure :=
  let status := r.status.getD ""
  if status = "failed" || status = "timedOut" then
    let err := extractError r
    let atts := r.attachments.getD []
    let cls := classify atts
    [{ test_name := title.getD "Unknown"
       test_file := fp
       duration_ms := r.duration.getD 0
       error_message := err.1
       error_stack := err.2
       status := status
       attachments := atts
       screenshots := cls.screenshots
       trace_path := cls.trace_path
       video_path := cls.video_path
       analysis := none }]
  else []

/-- Records produced by one spec of a suite with resolved file path `fp`
(the `for spec ... for test ... for result ...` loops). -/
def specRecords (fp : String) (sp : SpecNode) : List TestFailure :=
  (sp.tests.map (fun t => (t.results.map (resultRecords sp.title fp)).flatten)).flatten

/-- The recursive walk over a forest of suites.  For the head suite,
`file_path = suite.get('file', parent_file)`; its spec records come first,
then its child suites (processed with the resolved path), then its later
siblings (processed with the caller's parent path). -/
def processSuites (pf : String) : List Suite → List TestFailure
  | [] => []
  | Suite.mk file specs children :: rest =>
    let fp := file.getD pf
    (specs.map (specRecords fp)).flatten
      ++ processSuites fp children
      ++ processSuites pf rest

/-- Python `process_suite(suite, parent_file)` for a single suite. -/
def processSuite (s : Suite) (pf : String) : List TestFailure :=
  processSuites pf [s]

/-- Python `get_failures`: each top-level suite is processed with the default
`parent_file = ""`. -/
def get_failures (root : List Suite) : List TestFailure :=
  processSuites "" root

/-! ## Failure analyzer (`AzureOpenAIAnalyzer`)

The Azure client is an external collaborator; its one possible call per
failure is modelled by an `Except String String` value (the completion text,
or the description of a raised exception).  `analyze_failure` additionally
returns the number of backend requests it issued, so that "no network call is
attempted" is a provable statement.  The prompt string built before the call
is not modelled: it only flows into the backend request and never into any
returned value.
-/

/-- Configuration read once at startup; Python truthiness of the credential
strings (non-emptiness) decides `is_configured`. -/
structure AzureConfig where
  endpoint : String
  api_key : String
deriving DecidableEq, Repr

/-- Method `is_configured`: `bool(self.endpoint and self.api_key)`. -/
def is_configured (c : AzureConfig) : Bool :=
  !(c.endpoint == "") && !(c.api_key == "")

/-- Search for one section of the model response: models
`re.search(marker + r'\s*(.+?)(?=' + stop + r'|$)', s, re.DOTALL | re.IGNORECASE)`
followed by `.group(1).strip()`, for a literal `marker` and a literal
look-ahead `stop` (`stop? = none` models the third pattern, whose capture
runs to the end of the string).  The marker is matched case-insensitively at
its leftmost occurrence; the capture is the text after the marker (leading
whitespace skipped) up to the first later occurrence of `stop` — the
non-greedy group must consume at least one character — or the end of the
string, stripped. -/
def sectionSearch (marker : String) (stop? : Option String) (s : String) :
    Option String :=
  match findSub (lowerL s.data) (lowerL marker.data) with
  | none => none
  | some i =>
    let rest := s.data.drop (i + marker.data.length)
    let body := rest.dropWhile pyWs
    if body.isEmpty then
      -- the group must consume one character, so it backtracks into the
      -- whitespace when there is any, and the stripped capture is empty
      if rest.isEmpty then none else some ""
    else
      let content :=
        match stop? with
        | none => body
        | some stop =>
          match findSub (lowerL body.tail) (lowerL stop.data) with
          | some k => body.take (k + 1)
          | none => body
      some (String.mk (stripL content))

/-- Method `_parse_response` (lines 177-216): three independent extractions;
fields left empty when not found; when all three are empty the whole raw
response becomes the explanation and the other two fields get the
"See explanation" sentinel. -/
def parse_response (response : String) : FailureAnalysis :=
  let root_cause := (sectionSearch "**Root Cause:**" (some "**Explanation:") response).getD ""
  let explanation := (sectionSearch "**Explanation:**" (some "**Suggested Fix:") response).getD ""
  let suggested_fix := (sectionSearch "**Suggested Fix:**" none response).getD ""
  if root_cause = "" && explanation = "" && suggested_fix = "" then
    ⟨"See explanation", response, "See explanation"⟩
  else
    ⟨root_cause, explanation, suggested_fix⟩

/-- Method `analyze_failure` (lines 103-132).  Returns the analysis together
with the number of backend requests issued.  The unconfigured branch returns
before any request; otherwise the one request either yields completion text
(parsed) or raises (caught and converted, never propagated). -/
def analyze_failure (cfg : AzureConfig) (_f : TestFailure)
    (backend : Except String String) : FailureAnalysis × Nat :=
  if is_configured cfg = false then
    (⟨"Azure OpenAI not configured",
      "Please set AZURE_OPENAI_ENDPOINT and AZURE_OPENAI_API_KEY environment variables.",
      "Configure Azure OpenAI credentials in your .env file."⟩, 0)
  else
    match backend with
    | Except.ok content => (parse_response content, 1)
    | Except.error e =>
      (⟨"AI Analysis Error",
        "Failed to get AI analysis: " ++ e,
        "Check Azure OpenAI configuration and connectivity."⟩, 1)

/-- The analysis loop of `main` (lines 1212-1221): each failure in turn gets
`failure.analysis = analyzer.analyze_failure(failure)`.  The oracle gives the
backend outcome of the i-th request. -/
def analyzeAll (cfg : AzureConfig) (oracle : Nat → Except String String) :
    Nat → List TestFailure → List TestFailure
  | _, [] => []
  | i, f :: rest =>
    { f with analysis := some (analyze_failure cfg f (oracle i)).1 }
      :: analyzeAll cfg oracle (i + 1) rest

/-! ## Report assembly (`ReportGenerator`)

Filesystem state is passed explicitly: `ex p` tells whether path `p` exists
(`Path.exists`), and a `shutil.copy2` of an existing source is modelled as
succeeding.  Only the record-rewriting phase of `generate_html_report`
(lines 387-399) and the HTML fragments whose text the escaping claim is
about are embedded.
-/

/-- Method `_escape_html` (lines 1116-1124): empty (falsy) text maps to `""`;
otherwise the five chained `str.replace` calls, in source order. -/
def escapeHtml (t : String) : String :=
  if t = "" then ""
  else
    String.mk
      (replaceL "\x27".data "&#039;".data
        (replaceL "\"".data "&quot;".data
          (replaceL ">".data "&gt;".data
            (replaceL "<".data "&lt;".data
              (replaceL "&".data "&amp;".data t.data)))))

/-- Python `PurePath(p).name`: the final path component. -/
def pathBaseName (p : String) : String :=
  String.mk (((p.data.reverse.takeWhile (fun c => !(c == '/'))).reverse))

/-- Python `PurePath(p).suffix`: the final `.`-suffix of the last component,
empty when the dot is leading or trailing or absent. -/
def pathSuffix (p : String) : String :=
  let n := (pathBaseName p).data
  match findLastDot n 0 none with
  | some i => if 0 < i && i + 1 < n.length then String.mk (n.drop i) else ""
  | none => ""
where
  /-- Index of the last `'.'` in the list, scanning with an accumulator. -/
  findLastDot : List Char → Nat → Option Nat → Option Nat
    | [], _, acc => acc
    | c :: rest, i, acc =>
      findLastDot rest (i + 1) (if c == '.' then some i else acc)

/-- Method `_copy_screenshot` (lines 322-347): empty source path gives
nothing; a missing source falls back to `<report_dir>/data/<name>` when a
report directory was given; the destination keeps the source extension
(default `.png`) and is named after the failure index and screenshot index. -/
def copy_screenshot (ex : String → Bool) (reportDir : Option String)
    (src_path : String) (index test_index : Nat) : Option String :=
  if src_path = "" then none
  else
    let src? : Option String :=
      if ex src_path then some src_path
      else
        match reportDir with
        | some rd =>
          let possible := rd ++ "/data/" ++ pathBaseName src_path
          if ex possible then some possible else none
        | none => none
    match src? with
    | none => none
    | some src =>
      let ext := if pathSuffix src = "" then ".png" else pathSuffix src
      some ("assets/screenshot-" ++ toString test_index ++ "-"
        ++ toString index ++ ext)

/-- Method `_copy_trace` (lines 350-367). -/
def copy_trace (ex : String → Bool) (src_path : String) (test_index : Nat) :
    Option String :=
  if src_path = "" then none
  else if ex src_path then some ("assets/trace-" ++ toString test_index ++ ".zip")
  else none

/-- The per-record body of the screenshot-processing loop of
`generate_html_report` (lines 387-399): the record's `screenshots` field is
replaced by the successfully copied entries (rebuilt without a `contentType`
key) and, when `trace_path` is truthy, `trace_path` is replaced by the copy
result. -/
def processRecordForHtml (ex : String → Bool) (reportDir : Option String)
    (i : Nat) (f : TestFailure) : TestFailure :=
  let processed :=
    (f.screenshots.enum.filterMap fun sj =>
      (copy_screenshot ex reportDir sj.2.path sj.1 i).map
        fun rel => (⟨sj.2.name, rel, none⟩ : ShotRef))
  let tp :=
    match f.trace_path with
    | some p => if p ≠ "" then copy_trace ex p i else some p
    | none => none
  { f with screenshots := processed, trace_path := tp }

/-- The `for i, failure in enumerate(failures)` loop of
`generate_html_report`, rewriting every record in place. -/
def processForHtml (ex : String → Bool) (reportDir : Option String) :
    Nat → List TestFailure → List TestFailure
  | _, [] => []
  | i, f :: rest =>
    processRecordForHtml ex reportDir i f :: processForHtml ex reportDir (i + 1) rest

/-- One screenshot card of `_generate_test_row` (lines 1004-1009), with the
exact interpolations of the f-string: the path goes raw into `onclick` and
`src`, the name goes raw into `alt` and escaped into the label div. -/
def screenshotCard (ss : ShotRef) : String :=
  "\n                    <div class=\"screenshot-card\" onclick=\"openLightbox(\x27"
    ++ ss.path ++ "\x27)\">\n                        <img src=\""
    ++ ss.path ++ "\" alt=\"" ++ ss.name
    ++ "\" loading=\"lazy\">\n                        <div class=\"screenshot-label\">"
    ++ escapeHtml ss.name
    ++ "</div>\n                    </div>\n                "

/-- The concatenation `screenshot_cards` built by the loop of
`_generate_test_row` (lines 1002-1009). -/
def screenshotCards (shots : List ShotRef) : String :=
  shots.foldl (fun acc ss => acc ++ screenshotCard ss) ""

/-! ## Characterizations and measures used by the theorems -/

/-- Path of the last attachment of the list that reaches and passes the
trace branch of the classification loop (not a screenshot, and trace-named
or `.zip`-suffixed), if any. -/
def lastQualTrace : List Attachment → Option String
  | [] => none
  | a :: rest =>
    (lastQualTrace rest).or
      (if !scrCond a && trCond a then some (a.path.getD "") else none)

/-- Path of the last attachment of the list that reaches and passes the
video branch of the classification loop, if any. -/
def lastQualVideo : List Attachment → Option String
  | [] => none
  | a :: rest =>
    (lastQualVideo rest).or
      (if !scrCond a && !trCond a && vidCond a then some (a.path.getD "") else none)

/-- Whether a result's status selects it for failure extraction. -/
def resultMatches (r : TestResult) : Bool :=
  r.status.getD "" = "failed" || r.status.getD "" = "timedOut"

/-- Number of matching results in one spec. -/
def specCount (sp : SpecNode) : Nat :=
  (sp.tests.map (fun t => t.results.countP resultMatches)).sum

/-- Count of matching results in a forest of suites, with the same recursion
structure as `processSuites`. -/
def suitesCount : List Suite → Nat
  | [] => 0
  | Suite.mk _ specs children :: rest =>
    (specs.map specCount).sum + suitesCount children + suitesCount rest

/-- A result with the given status and no other data. -/
def bareResult (st : String) : TestResult := ⟨some st, none, none, none, none⟩

/-- A one-spec suite holding exactly the given results. -/
def suiteOf (file : Option String) (title : String) (rs : List TestResult)
    (children : List Suite) : Suite :=
  Suite.mk file [⟨some title, [⟨rs⟩]⟩] children

/-- Three-level nested document in which only the root suite declares a file
path and every level holds one failed result. -/
def c5Tree : List Suite :=
  [suiteOf (some "root.spec.ts") "s0" [bareResult "failed"]
    [suiteOf none "s1" [bareResult "failed"]
      [suiteOf none "s2" [bareResult "failed"] []]]]

/-- A failure record with one classified screenshot and a trace path, used to
exhibit the mutation performed by HTML report generation. -/
def c9Record : TestFailure :=
  { test_name := "t", test_file := "f.ts", duration_ms := 7
    error_message := "m", error_stack := "s", status := "failed"
    attachments := [⟨some "screenshot", some "/tmp/a.png", some "image/png"⟩]
    screenshots := [⟨"screenshot", "/tmp/a.png", some "image/png"⟩]
    trace_path := some "/tmp/t.zip", video_path := none, analysis := none }


theorem classifyLoop_spec (atts : List Attachment) : ∀ acc : Classified,
    classifyLoop acc atts =
      ⟨acc.screenshots ++ (atts.filter scrCond).map mkShot,
       (lastQualTrace atts).or acc.trace_path,
       (lastQualVideo atts).or acc.video_path⟩ := by
  induction atts with
  | nil => intro acc; simp [classifyLoop, lastQualTrace, lastQualVideo]
  | cons a rest ih =>
    intro acc
    simp only [classifyLoop, ih]
    cases hs : scrCond a with
    | true =>
      simp [classifyStep, hs, lastQualTrace, lastQualVideo, List.filter_cons,
        Option.or_assoc, Option.or_none]
    | false =>
      cases ht : trCond a with
      | true =>
        simp [classifyStep, hs, ht, lastQualTrace, lastQualVideo, List.filter_cons,
          Option.or_assoc, Option.or_none]
      | false =>
        cases hv : vidCond a with
        | true =>
          simp [classifyStep, hs, ht, hv, lastQualTrace, lastQualVideo, List.filter_cons,
            Option.or_assoc, Option.or_none]
        | false =>
          simp [classifyStep, hs, ht, hv, lastQualTrace, lastQualVideo, List.filter_cons,
            Option.or_assoc, Option.or_none]

theorem classify_spec (atts : List Attachment) :
    classify atts =
      ⟨(atts.filter scrCond).map mkShot, lastQualTrace atts, lastQualVideo atts⟩ := by
  simp [classify, classifyLoop_spec, Option.or_none]

theorem sum_ite_one {α : Type} (p : α → Bool) (l : List α) :
    (l.map fun a => if p a then 1 else 0).sum = l.countP p := by
  induction l with
  | nil => simp
  | cons a l ih => simp [List.countP_cons, ih, Nat.add_comm]

theorem length_resultRecords (title : Option String) (fp : String) (r : TestResult) :
    (resultRecords title fp r).length = if resultMatches r then 1 else 0 := by
  unfold resultRecords resultMatches
  split <;> simp_all

theorem status_of_mem_resultRecords {f : TestFailure} (title : Option String)
    (fp : String) (r : TestResult) (h : f ∈ resultRecords title fp r) :
    f.status = "failed" ∨ f.status = "timedOut" := by
  simp only [resultRecords] at h
  split at h
  case isTrue hc =>
    simp only [List.mem_singleton] at h
    subst h
    simpa using hc
  case isFalse => simp at h

theorem length_specRecords (fp : String) (sp : SpecNode) :
    (specRecords fp sp).length = specCount sp := by
  have h1 : (List.length ∘ resultRecords sp.title fp)
      = fun r : TestResult => if resultMatches r then 1 else 0 :=
    funext fun r => length_resultRecords sp.title fp r
  have h2 : (List.length ∘ fun t : TestNode => (t.results.map (resultRecords sp.title fp)).flatten)
      = fun t : TestNode => t.results.countP resultMatches := by
    funext t
    simp [List.length_flatten, List.map_map, h1, sum_ite_one]
  simp [specRecords, specCount, List.length_flatten, List.map_map, h2]

theorem status_of_mem_specRecords {f : TestFailure} (fp : String) (sp : SpecNode)
    (h : f ∈ specRecords fp sp) : f.status = "failed" ∨ f.status = "timedOut" := by
  simp only [specRecords, List.mem_flatten, List.mem_map] at h
  obtain ⟨l1, ⟨t, ht, rfl⟩, h1⟩ := h
  simp only [List.mem_flatten, List.mem_map] at h1
  obtain ⟨l2, ⟨r, hr, rfl⟩, h2⟩ := h1
  exact status_of_mem_resultRecords _ _ _ h2

theorem length_processSuites (pf : String) (l : List Suite) :
    (processSuites pf l).length = suitesCount l := by
  induction pf, l using processSuites.induct with
  | case1 pf => simp [processSuites, suitesCount]
  | case2 pf file specs children rest fp ih1 ih2 =>
    have h : (List.length ∘ specRecords (file.getD pf)) = specCount :=
      funext fun sp => length_specRecords _ sp
    simp [processSuites, suitesCount, ih1, ih2, List.length_flatten, List.map_map, h]
    omega

theorem status_of_mem_processSuites {f : TestFailure} (pf : String) (l : List Suite)
    (h : f ∈ processSuites pf l) : f.status = "failed" ∨ f.status = "timedOut" := by
  induction pf, l using processSuites.induct with
  | case1 pf => simp [processSuites] at h
  | case2 pf file specs children rest fp ih1 ih2 =>
    simp only [processSuites, List.mem_append, List.mem_flatten, List.mem_map] at h
    rcases h with (⟨l1, ⟨sp, hsp, rfl⟩, h1⟩ | h) | h
    · exact status_of_mem_specRecords _ _ h1
    · exact ih1 h
    · exact ih2 h


theorem sectionSearch_none {s marker : String} (stop? : Option String)
    (h : containsCI s marker = false) : sectionSearch marker stop? s = none := by
  unfold sectionSearch
  unfold containsCI containsSub at h
  cases hf : findSub (lowerL s.data) (lowerL marker.data) with
  | none => rfl
  | some i => rw [hf] at h; simp at h

theorem length_analyzeAll (cfg : AzureConfig) (oracle : Nat → Except String String) :
    ∀ (i : Nat) (fs : List TestFailure), (analyzeAll cfg oracle i fs).length = fs.length := by
  intro i fs
  induction fs generalizing i with
  | nil => rfl
  | cons f rest ih => simp [analyzeAll, ih]

set_option maxRecDepth 40000 in
/-- C1: the claim that every piece of free text interpolated into the HTML
report is escaped, with no exceptions, fails in the code: the screenshot
card of `_generate_test_row` interpolates the attachment name raw into the
`alt` attribute, while escaping the very same string one line later in the
label div.  Evaluated at a name made of the five reserved characters, the
rendered fragment contains them raw inside the `alt` attribute even though
`_escape_html` itself escapes all five. -/
theorem C1_alt_attribute_unescaped :
    strContains (screenshotCard ⟨"&<>\"\x27", "assets/screenshot-0-0.png", none⟩)
        "alt=\"&<>\"\x27\" loading=\"lazy\"" = true
      ∧ escapeHtml "&<>\"\x27" = "&amp;&lt;&gt;&quot;&#039;"
      ∧ strContains (screenshotCard ⟨"&<>\"\x27", "assets/screenshot-0-0.png", none⟩)
          "<div class=\"screenshot-label\">&amp;&lt;&gt;&quot;&#039;</div>" = true := by
  refine ⟨by decide, by decide, by decide⟩

/-- C2, counterexample: with two qualifying trace attachments the trace slot
holds the second (last) one, not the first; likewise for video. -/
theorem C2_counterexample :
    (classify [⟨some "mytrace", some "a.zip", none⟩,
               ⟨some "othertrace", some "b.zip", none⟩]).trace_path ≠ some "a.zip"
      ∧ (classify [⟨some "mytrace", some "a.zip", none⟩,
                   ⟨some "othertrace", some "b.zip", none⟩]).trace_path = some "b.zip"
      ∧ (classify [⟨some "clip", some "v1.webm", some "video/webm"⟩,
                   ⟨some "clip2", some "v2.webm", some "video/webm"⟩]).video_path ≠ some "v1.webm"
      ∧ (classify [⟨some "clip", some "v1.webm", some "video/webm"⟩,
                   ⟨some "clip2", some "v2.webm", some "video/webm"⟩]).video_path = some "v2.webm" := by
  refine ⟨by decide, by decide, by decide, by decide⟩

/-- C2, amended: each qualifying trace (resp. video) attachment overwrites
the slot, so the slot holds the LAST attachment in input order that reaches
and passes the trace (resp. video) branch, not the first. -/
theorem C2_amended_last_match_wins (atts : List Attachment) :
    (classify atts).trace_path = lastQualTrace atts
      ∧ (classify atts).video_path = lastQualVideo atts := by
  rw [classify_spec]
  exact ⟨rfl, rfl⟩

/-- C3, counterexample: a result whose status is the literal `timed_out`
produces no record, although the claim requires one; a result with status
`timedOut` — equal to neither `failed` nor `timed_out` — produces one,
although the claim forbids it. -/
theorem C3_counterexample :
    get_failures [suiteOf (some "f.ts") "t" [bareResult "timed_out"] []] = []
      ∧ (get_failures [suiteOf (some "f.ts") "t" [bareResult "timedOut"] []]).length = 1
      ∧ ¬("timedOut" = "failed" ∨ "timedOut" = "timed_out") := by
  refine ⟨?_, ?_, by decide⟩ <;>
    simp [get_failures, processSuites, suiteOf, bareResult, specRecords, resultRecords,
      extractError, classify, classifyLoop]

/-- C3, amended: the tree walk produces a FailureRecord exactly for results
whose status is `failed` or `timedOut` (the camel-case spelling used by the
input format): the number of records equals the number of such results, and
every produced record carries one of these two statuses. -/
theorem C3_amended_status_filter (pf : String) (l : List Suite) :
    (processSuites pf l).length = suitesCount l
      ∧ ∀ f : TestFailure, f ∈ processSuites pf l →
          f.status = "failed" ∨ f.status = "timedOut" :=
  ⟨length_processSuites pf l, fun _f h => status_of_mem_processSuites pf l h⟩

/-- C3 witness: the amended theorem applied to a concrete document holding
one timed-out and one passed result. -/
theorem C3_amended_status_filter_witness :
    ((processSuites "" [suiteOf (some "f.ts") "t" [bareResult "timedOut", bareResult "passed"] []]).length
        = suitesCount [suiteOf (some "f.ts") "t" [bareResult "timedOut", bareResult "passed"] []])
      ∧ (({ test_name := "t", test_file := "f.ts", duration_ms := 0, error_message := ""
            error_stack := "", status := "timedOut", attachments := [], screenshots := []
            trace_path := none, video_path := none, analysis := none } : TestFailure).status = "failed"
          ∨ ({ test_name := "t", test_file := "f.ts", duration_ms := 0, error_message := ""
               error_stack := "", status := "timedOut", attachments := [], screenshots := []
               trace_path := none, video_path := none, analysis := none } : TestFailure).status = "timedOut") :=
  ⟨(C3_amended_status_filter ""
      [suiteOf (some "f.ts") "t" [bareResult "timedOut", bareResult "passed"] []]).1,
   (C3_amended_status_filter ""
      [suiteOf (some "f.ts") "t" [bareResult "timedOut", bareResult "passed"] []]).2
     ⟨"t", "f.ts", 0, "", "", "timedOut", [], [], none, none, none⟩ (by
      simp [processSuites, suiteOf, bareResult, specRecords, resultRecords,
        extractError, classify, classifyLoop])⟩


/-- C4, counterexample: a result carrying both a plural `errors` key (an
empty list) and a singular `error` object takes its message from the
singular object, although the claim allows the singular only when the
plural key is absent. -/
theorem C4_counterexample :
    ((get_failures [Suite.mk (some "f.ts")
        [⟨some "t", [⟨[⟨some "failed", none, some ⟨some "SING", some "SSTK"⟩, some [], none⟩]⟩]⟩]
        []]).map fun f => f.error_message) = ["SING"]
      ∧ (⟨some "failed", none, some ⟨some "SING", some "SSTK"⟩, some [], none⟩
          : TestResult).errors ≠ none := by
  refine ⟨?_, by decide⟩
  simp [get_failures, processSuites, specRecords, resultRecords, extractError,
    classify, classifyLoop]

/-- C4, amended: the first element of `errors` is used whenever `errors` is
present and non-empty (truthy); the singular `error` object is used when
`errors` is absent or an empty list. -/
theorem C4_amended_error_precedence (r : TestResult) :
    (∀ (e : ErrorObj) (rest : List ErrorObj), r.errors = some (e :: rest) →
        extractError r = (e.message.getD "", e.stack.getD ""))
      ∧ (∀ e : ErrorObj, (r.errors = none ∨ r.errors = some []) → r.error = some e →
        extractError r = (e.message.getD "", e.stack.getD "")) := by
  constructor
  · intro e rest h
    simp [extractError, h]
  · intro e h he
    rcases h with h | h <;> simp [extractError, h, he]

/-- C4 witness: both branches of the amended theorem at concrete results. -/
theorem C4_amended_error_precedence_witness :
    extractError ⟨some "failed", none, some ⟨some "S", none⟩, some [⟨some "P", none⟩], none⟩
        = ("P", "")
      ∧ extractError ⟨some "failed", none, some ⟨some "S", none⟩, some [], none⟩ = ("S", "") :=
  ⟨(C4_amended_error_precedence
      ⟨some "failed", none, some ⟨some "S", none⟩, some [⟨some "P", none⟩], none⟩).1
      ⟨some "P", none⟩ [] rfl,
   (C4_amended_error_precedence
      ⟨some "failed", none, some ⟨some "S", none⟩, some [], none⟩).2
      ⟨some "S", none⟩ (Or.inr rfl) rfl⟩

/-- C5: file-path inheritance.  First, in the three-level document in which
only the root suite declares a file path and every level holds one failing
result, all three records report the root path.  Second, in general a suite
that declares no file path of its own hands its parent's path both to its
own specs and to its children.  Third, the root call passes the empty
string. -/
theorem C5_file_inheritance :
    ((get_failures c5Tree).map fun f => f.test_file)
        = ["root.spec.ts", "root.spec.ts", "root.spec.ts"]
      ∧ (∀ (pf : String) (specs : List SpecNode) (children rest : List Suite),
          processSuites pf (Suite.mk none specs children :: rest)
            = (specs.map (specRecords pf)).flatten
                ++ processSuites pf children ++ processSuites pf rest)
      ∧ ∀ l : List Suite, get_failures l = processSuites "" l := by
  refine ⟨?_, fun pf specs children rest => by simp [processSuites], fun l => rfl⟩
  simp [get_failures, processSuites, c5Tree, suiteOf, bareResult, specRecords,
    resultRecords, extractError, classify, classifyLoop]

/-- C6: when the raw model response contains none of the three section
markers, all three extractions fail and the fallback stores the entire raw
response as the explanation, with the "See explanation" sentinel in the
other two fields. -/
theorem C6_parse_fallback (resp : String)
    (h1 : containsCI resp "**Root Cause:**" = false)
    (h2 : containsCI resp "**Explanation:**" = false)
    (h3 : containsCI resp "**Suggested Fix:**" = false) :
    parse_response resp = ⟨"See explanation", resp, "See explanation"⟩ := by
  rw [parse_response, sectionSearch_none _ h1, sectionSearch_none _ h2,
    sectionSearch_none _ h3]
  rfl

/-- C6 witness: a marker-free response falls back to the raw text. -/
theorem C6_parse_fallback_witness :
    containsCI "it broke" "**Root Cause:**" = false
      ∧ parse_response "it broke" = ⟨"See explanation", "it broke", "See explanation"⟩ :=
  ⟨by decide, C6_parse_fallback "it broke" (by decide) (by decide) (by decide)⟩

/-- C7: with an unconfigured backend (missing endpoint or API key),
`analyze_failure` returns the fixed "Azure OpenAI not configured" result for
every failure and issues zero backend requests. -/
theorem C7_unconfigured_short_circuit (cfg : AzureConfig) (f : TestFailure)
    (backend : Except String String) (h : is_configured cfg = false) :
    analyze_failure cfg f backend =
      (⟨"Azure OpenAI not configured",
        "Please set AZURE_OPENAI_ENDPOINT and AZURE_OPENAI_API_KEY environment variables.",
        "Configure Azure OpenAI credentials in your .env file."⟩, 0) := by
  simp [analyze_failure, h]

/-- C7 witness: empty credentials at a concrete failure record. -/
theorem C7_unconfigured_short_circuit_witness :
    is_configured ⟨"", ""⟩ = false
      ∧ analyze_failure ⟨"", ""⟩ c9Record (Except.ok "some completion") =
        (⟨"Azure OpenAI not configured",
          "Please set AZURE_OPENAI_ENDPOINT and AZURE_OPENAI_API_KEY environment variables.",
          "Configure Azure OpenAI credentials in your .env file."⟩, 0) :=
  ⟨by decide, C7_unconfigured_short_circuit ⟨"", ""⟩ c9Record (Except.ok "some completion")
    (by decide)⟩


/-- C8: a backend error raised during the completion request is caught and
converted into the fixed "AI Analysis Error" result whose explanation embeds
the error description; `analyze_failure` still returns a result (the error
is never propagated), and in the analysis loop each record's outcome depends
only on its own failure and its own backend response, so one failure's error
leaves the analysis of every other failure unchanged. -/
theorem C8_backend_error_absorbed (cfg : AzureConfig) (f g : TestFailure) (e : String)
    (oracle : Nat → Except String String) (i : Nat) (rest : List TestFailure)
    (hc : is_configured cfg = true) :
    analyze_failure cfg f (Except.error e) =
        (⟨"AI Analysis Error", "Failed to get AI analysis: " ++ e,
          "Check Azure OpenAI configuration and connectivity."⟩, 1)
      ∧ analyzeAll cfg oracle i (g :: rest) =
          { g with analysis := some (analyze_failure cfg g (oracle i)).1 }
            :: analyzeAll cfg oracle (i + 1) rest
      ∧ (analyzeAll cfg oracle i (g :: rest)).length = rest.length + 1 := by
  refine ⟨by simp [analyze_failure, hc], rfl, ?_⟩
  simp [length_analyzeAll]

/-- C8 witness: a configured backend and a failing request at concrete
inputs. -/
theorem C8_backend_error_absorbed_witness :
    is_configured ⟨"https://x", "key"⟩ = true
      ∧ analyze_failure ⟨"https://x", "key"⟩ c9Record (Except.error "boom") =
        (⟨"AI Analysis Error", "Failed to get AI analysis: boom",
          "Check Azure OpenAI configuration and connectivity."⟩, 1) :=
  ⟨by decide,
   (C8_backend_error_absorbed ⟨"https://x", "key"⟩ c9Record c9Record "boom"
      (fun _ => Except.error "boom") 0 [] (by decide)).1⟩

/-- C9, counterexample: HTML report generation does mutate a record beyond
its analysis field — with no copyable assets on disk it empties the
`screenshots` list and clears `trace_path`, so those fields do not remain
unchanged through report rendering as the claim states. -/
theorem C9_counterexample :
    (processRecordForHtml (fun _ => false) none 0 c9Record).screenshots = []
      ∧ (processRecordForHtml (fun _ => false) none 0 c9Record).trace_path = none
      ∧ c9Record.screenshots ≠ []
      ∧ c9Record.trace_path ≠ none := by
  refine ⟨by decide, by decide, by decide, by decide⟩

/-- C9, amended: the analysis loop rewrites only the `analysis` field, and
HTML report generation rewrites only the `screenshots` and `trace_path`
fields (to copied asset entries); every other field — test name, file,
duration, error message and stack, status, raw attachments, video path —
is unchanged by both phases, and the analysis set by the loop is not touched
by rendering. -/
theorem C9_frame_condition (ex : String → Bool) (rd : Option String) (i : Nat)
    (f g : TestFailure) (cfg : AzureConfig) (oracle : Nat → Except String String)
    (rest : List TestFailure) :
    ((processRecordForHtml ex rd i f).test_name = f.test_name
      ∧ (processRecordForHtml ex rd i f).test_file = f.test_file
      ∧ (processRecordForHtml ex rd i f).duration_ms = f.duration_ms
      ∧ (processRecordForHtml ex rd i f).error_message = f.error_message
      ∧ (processRecordForHtml ex rd i f).error_stack = f.error_stack
      ∧ (processRecordForHtml ex rd i f).status = f.status
      ∧ (processRecordForHtml ex rd i f).attachments = f.attachments
      ∧ (processRecordForHtml ex rd i f).video_path = f.video_path
      ∧ (processRecordForHtml ex rd i f).analysis = f.analysis)
      ∧ (analyzeAll cfg oracle i (g :: rest) =
          { g with analysis := some (analyze_failure cfg g (oracle i)).1 }
            :: analyzeAll cfg oracle (i + 1) rest
        ∧ ({ g with analysis := some (analyze_failure cfg g (oracle i)).1
             } : TestFailure).test_name = g.test_name
        ∧ ({ g with analysis := some (analyze_failure cfg g (oracle i)).1
             } : TestFailure).screenshots = g.screenshots
        ∧ ({ g with analysis := some (analyze_failure cfg g (oracle i)).1
             } : TestFailure).trace_path = g.trace_path
        ∧ ({ g with analysis := some (analyze_failure cfg g (oracle i)).1
             } : TestFailure).video_path = g.video_path) :=
  ⟨⟨rfl, rfl, rfl, rfl, rfl, rfl, rfl, rfl, rfl⟩, rfl, rfl, rfl, rfl, rfl⟩

/-- C10: classification is exclusive and ordered — the result of `classify`
is exactly: all screenshot-matching attachments (in order) in the screenshot
list, the trace slot fed only by attachments that are NOT screenshots yet
match the trace test, and the video slot fed only by attachments that are
neither screenshots nor traces yet match the video test.  In particular a
screenshot-named attachment whose path ends in `.zip` lands in the
screenshot list and leaves the trace and video slots empty. -/
theorem C10_priority_exclusive (atts : List Attachment) :
    classify atts =
        ⟨(atts.filter scrCond).map mkShot, lastQualTrace atts, lastQualVideo atts⟩
      ∧ classify [⟨some "screenshot-final", some "s.zip", none⟩] =
        ⟨[⟨"screenshot-final", "s.zip", some ""⟩], none, none⟩ :=
  ⟨classify_spec atts, by decide⟩

end FailureExplainer
